import Mathlib

/-!
# Verification of the Suwi service worker (src/static/service-worker.js)

A shallow embedding of the browser-resident caching agent: the install,
activate, fetch and push event handlers, together with a model of the
Cache Storage API (named stores mapping request keys to stored responses)
and of the network as an oracle supplied per event.

JS string operations are modelled on the character lists underlying Lean
strings: `String.prototype.startsWith` as `List.isPrefixOf` of the prefix
over the data, `String.prototype.includes` as a substring test.
-/

/-- Models JS `s.startsWith(p)`: the characters of `p` are a prefix of the
characters of `s`. -/
def jsStartsWith (s p : String) : Bool :=
  p.data.isPrefixOf s.data

/-- Substring occurrence on character lists: `sub` occurs somewhere in `l`. -/
def listIncludes (sub : List Char) : List Char → Bool
  | [] => sub.isEmpty
  | c :: cs => sub.isPrefixOf (c :: cs) || listIncludes sub cs

/-- Models JS `s.includes(sub)`. -/
def jsIncludes (s sub : String) : Bool :=
  listIncludes sub.data s.data

/-- Models JS `x || dflt` for an optional string `x`: the default is used when
the field is absent or the empty string (the two falsy string cases). -/
def jsOr : Option String → String → String
  | none, d => d
  | some s, d => if s = "" then d else s

/-- A stored/network response snapshot: status, body and content type
(`Response` in the worker; `ok` is the 2xx test of the Fetch API). -/
structure Response where
  status : Nat
  body : String
  contentType : Option String
deriving DecidableEq, Repr

/-- JS `response.ok`: status in the inclusive range 200–299. -/
def Response.ok (r : Response) : Bool :=
  200 ≤ r.status && r.status ≤ 299

/-- An intercepted request: method, URL path (`url.pathname`), query string
(`url.search`) and the value of the `Accept` header when present. -/
structure Request where
  method : String
  path : String
  query : String
  accept : Option String
deriving DecidableEq, Repr

/-- Cache keys are the request URL (path plus query); only GET requests are
ever cached, so the method is not part of the key. -/
def reqKey (req : Request) : String :=
  req.path ++ req.query

/-- One named cache: an association list from request keys to responses. -/
abbrev Cache := List (String × Response)

/-- The Cache Storage: named caches in creation order. -/
abbrev CacheStorage := List (String × Cache)

-- Source constants (service-worker.js lines 6-15).

def CACHE_VERSION : String := "v1"

def CACHE_NAME : String := "suwi-" ++ CACHE_VERSION

def STATIC_ASSETS : List String :=
  ["/menu/", "/static/css/main.css", "/static/js/main.js", "/static/manifest.json"]

/-- Models `cache.match(request)` on a single cache: first entry with the key. -/
def cacheMatchOne (c : Cache) (k : String) : Option Response :=
  (c.find? (fun e => e.1 == k)).map (fun e => e.2)

/-- Models `cache.put(request, response)`: remove any entry with the key, then add
the new one (the Batch Cache Operations of the Cache API — a put always
replaces). -/
def cachePut (c : Cache) (k : String) (r : Response) : Cache :=
  c.filter (fun e => !(e.1 == k)) ++ [(k, r)]

/-- Models `caches.match(request)`: search each named cache in order, returning the
first hit. -/
def cachesMatch (cs : CacheStorage) (k : String) : Option Response :=
  match cs with
  | [] => none
  | (_, c) :: rest =>
    match cacheMatchOne c k with
    | some r => some r
    | none => cachesMatch rest k

/-- The cache registered under `n` (empty when `caches.open` would create
it fresh). -/
def cachesGet (cs : CacheStorage) (n : String) : Cache :=
  match cs.find? (fun e => e.1 == n) with
  | some e => e.2
  | none => []

/-- Replace the cache registered under `n`, creating it when absent
(`caches.open` plus commit of the updated cache). -/
def cachesSet : CacheStorage → String → Cache → CacheStorage
  | [], n, c => [(n, c)]
  | e :: t, n, c => if e.1 == n then (n, c) :: t else e :: cachesSet t n c

/-- Models `caches.open(n).then(cache => cache.put(k, r))`. -/
def cachesPut (cs : CacheStorage) (n : String) (k : String) (r : Response) :
    CacheStorage :=
  cachesSet cs n (cachePut (cachesGet cs n) k r)

/-- Outcome of a fetch event from the page's point of view. -/
inductive Outcome where
  /-- The handler returned without calling `respondWith`: the request goes
  to the network untouched by the worker. -/
  | passThrough
  /-- Case where `respondWith` was called and settled with this response. -/
  | respond (r : Response)
  /-- Case where `respondWith` was called with a promise that rejected: the fetch
  fails at the requester. -/
  | failure
deriving DecidableEq, Repr

/-- What one `fetch(event.request)` call would do for this event. -/
inductive FetchOutcome where
  /-- The fetch resolves with a response (any status). -/
  | success (r : Response)
  /-- Transport-level failure: the fetch promise rejects. -/
  | reject
deriving DecidableEq, Repr

/-- Result of running the fetch handler: the page-visible outcome, the cache
storage afterwards, whether the handler itself called `fetch`, and whether
it consulted the cache. -/
structure FetchResult where
  outcome : Outcome
  store : CacheStorage
  networkUsed : Bool
  cacheRead : Bool
deriving DecidableEq, Repr

/-- The bypass filter of the fetch listener (service-worker.js lines 57-61). -/
def isBypass (path : String) : Bool :=
  jsStartsWith path "/admin/" || jsStartsWith path "/cart/" ||
  jsStartsWith path "/orders/" || jsStartsWith path "/accounts/" ||
  jsStartsWith path "/telegram/"

/-- Models the Accept-header test of the fetch listener (line 107): the
header value, when present, is searched for the substring text/html; an
absent header counts as false (optional chaining yields a falsy value). -/
def acceptsHtml (req : Request) : Bool :=
  match req.accept with
  | some a => jsIncludes a "text/html"
  | none => false

/-- The synthesized HTML offline response (service-worker.js lines 108-111). -/
def offlineHtmlResponse : Response :=
  { status := 503
    body := "<html><body><h1>Вы офлайн</h1><p>Проверьте подключение к интернету</p></body></html>"
    contentType := some "text/html; charset=utf-8" }

/-- The synthesized plain offline response (service-worker.js line 113). -/
def offlineTextResponse : Response :=
  { status := 503, body := "Offline", contentType := none }

/-- The fetch listener (service-worker.js lines 48-117). `net` is what the
single possible `fetch(event.request)` of this event would return. The
fire-and-forget `cache.put` of a successful response is reflected in the
returned store. -/
def handleFetch (store : CacheStorage) (net : FetchOutcome) (req : Request) :
    FetchResult :=
  if req.method ≠ "GET" then
    { outcome := .passThrough, store := store, networkUsed := false, cacheRead := false }
  else if isBypass req.path then
    { outcome := .passThrough, store := store, networkUsed := false, cacheRead := false }
  else if jsStartsWith req.path "/static/" then
    match cachesMatch store (reqKey req) with
    | some cached =>
      { outcome := .respond cached, store := store, networkUsed := false, cacheRead := true }
    | none =>
      match net with
      | .success response =>
        if response.ok then
          { outcome := .respond response
            store := cachesPut store CACHE_NAME (reqKey req) response
            networkUsed := true, cacheRead := true }
        else
          { outcome := .respond response, store := store, networkUsed := true, cacheRead := true }
      | .reject =>
        { outcome := .failure, store := store, networkUsed := true, cacheRead := true }
  else
    match net with
    | .success response =>
      if response.ok then
        { outcome := .respond response
          store := cachesPut store CACHE_NAME (reqKey req) response
          networkUsed := true, cacheRead := false }
      else
        { outcome := .respond response, store := store, networkUsed := true, cacheRead := false }
    | .reject =>
      match cachesMatch store (reqKey req) with
      | some cached =>
        { outcome := .respond cached, store := store, networkUsed := true, cacheRead := true }
      | none =>
        if acceptsHtml req then
          { outcome := .respond offlineHtmlResponse, store := store
            networkUsed := true, cacheRead := true }
        else
          { outcome := .respond offlineTextResponse, store := store
            networkUsed := true, cacheRead := true }

/-- The fetch batch of `cache.addAll`: fetch each path; any transport
rejection, or any response that is not `ok`, fails the whole batch. -/
def addAllFetch (net : String → FetchOutcome) :
    List String → Option (List (String × Response))
  | [] => some []
  | p :: ps =>
    match net p with
    | .reject => none
    | .success r =>
      if r.ok then (addAllFetch net ps).map (fun es => (p, r) :: es) else none

/-- Models `cache.addAll(paths)`: an atomic batch — either every fetched response is
committed with one batch operation, or the cache is untouched and the
returned promise rejects (`none`). -/
def addAll (c : Cache) (net : String → FetchOutcome) (paths : List String) :
    Option Cache :=
  (addAllFetch net paths).map
    (fun es => es.foldl (fun acc e => cachePut acc e.1 e.2) c)

/-- The install listener (service-worker.js lines 18-27):
`caches.open(CACHE_NAME)` then `cache.addAll(STATIC_ASSETS)`; a batch
failure propagates out of `event.waitUntil`, failing the install (`none`). -/
def handleInstall (store : CacheStorage) (net : String → FetchOutcome) :
    Option CacheStorage :=
  match addAll (cachesGet store CACHE_NAME) net STATIC_ASSETS with
  | none => none
  | some c => some (cachesSet store CACHE_NAME c)

/-- The stale-store test of the activate listener (service-worker.js
line 35): the name carries the suwi- prefix and differs from `CACHE_NAME`. -/
def isStale (n : String) : Bool :=
  jsStartsWith n "suwi-" && n != CACHE_NAME

/-- The activate listener (service-worker.js lines 30-45) when every
deletion succeeds: each stale name is deleted, the rest are kept. -/
def handleActivate (store : CacheStorage) : CacheStorage :=
  store.filter (fun e => !(isStale e.1))

/-- The activate listener with a per-store deletion oracle `delOk`. The
`.map` over the filtered names starts one `caches.delete` per stale store
eagerly, so every deletion runs regardless of the others rejecting
(`Promise.all` never cancels); a store disappears exactly when its own
deletion succeeds, and activation proceeds either way (`clients.claim` is
outside `waitUntil`, and a rejected activate `waitUntil` does not veto
activation). -/
def handleActivateBE (store : CacheStorage) (delOk : String → Bool) :
    CacheStorage :=
  store.filter (fun e => !(isStale e.1 && delOk e.1))

/-- The parsed push payload (`event.data.json()`), fields optional as in
`{ title?, body?, url? }`. -/
structure PushPayload where
  title : Option String
  body : Option String
  url : Option String
deriving DecidableEq, Repr

/-- The options object passed to `showNotification` (service-worker.js
lines 124-132). -/
structure NotificationOptions where
  body : Option String
  icon : String
  badge : String
  vibrate : List Nat
  dataUrl : String
deriving DecidableEq, Repr

/-- The push listener (service-worker.js lines 120-137): no payload means no
notification; otherwise the shown title is the payload title with the falsy
default Suwi, the body is passed through as-is, and the target URL is the
payload url with the falsy default of the site root. -/
def handlePush (data : Option PushPayload) :
    Option (String × NotificationOptions) :=
  match data with
  | none => none
  | some d =>
    some (jsOr d.title "Suwi",
      { body := d.body
        icon := "/static/icons/icon-192x192.png"
        badge := "/static/icons/icon-72x72.png"
        vibrate := [100, 50, 100]
        dataUrl := jsOr d.url "/" })

/-! ## Helper lemmas -/

/-- A path under `/static/` matches none of the bypass prefixes: the second
character of every bypass prefix differs from the `s` of `/static/`. -/
theorem static_path_not_bypass (s : String)
    (h : jsStartsWith s "/static/" = true) : isBypass s = false := by
  obtain ⟨data⟩ := s
  match data with
  | [] => exact absurd h (by decide)
  | [c1] =>
    have hd : "/static/".data = ['/', 's', 't', 'a', 't', 'i', 'c', '/'] := rfl
    simp [jsStartsWith, hd, List.isPrefixOf_cons₂] at h
  | c1 :: c2 :: rest =>
    have hd : "/static/".data = ['/', 's', 't', 'a', 't', 'i', 'c', '/'] := rfl
    simp [jsStartsWith, hd, List.isPrefixOf_cons₂] at h
    obtain ⟨h1, h2, -⟩ := h
    subst h1
    subst h2
    have ha : "/admin/".data = ['/', 'a', 'd', 'm', 'i', 'n', '/'] := rfl
    have hc : "/cart/".data = ['/', 'c', 'a', 'r', 't', '/'] := rfl
    have ho : "/orders/".data = ['/', 'o', 'r', 'd', 'e', 'r', 's', '/'] := rfl
    have hacc : "/accounts/".data = ['/', 'a', 'c', 'c', 'o', 'u', 'n', 't', 's', '/'] := rfl
    have ht : "/telegram/".data = ['/', 't', 'e', 'l', 'e', 'g', 'r', 'a', 'm', '/'] := rfl
    simp [isBypass, jsStartsWith, ha, hc, ho, hacc, ht, List.isPrefixOf_cons₂]

/-- A put always makes its key findable, with the new response. -/
theorem find_cachePut_self (c : Cache) (k : String) (r : Response) :
    (cachePut c k r).find? (fun e => e.1 == k) = some (k, r) := by
  unfold cachePut
  induction c with
  | nil => simp
  | cons e t ih =>
    by_cases h : e.1 = k
    · simp [h]
    · simp [List.filter_cons, h]

/-- Matching after a put of the same key returns the new response. -/
theorem cacheMatchOne_cachePut_self (c : Cache) (k : String) (r : Response) :
    cacheMatchOne (cachePut c k r) k = some r := by
  simp [cacheMatchOne, find_cachePut_self]

/-- Searching for a different key ignores both the removal and the appended
new entry of a put. -/
theorem find_filterne_append (t : Cache) (k k' : String) (r : Response)
    (hkk : (k == k') = false) :
    List.find? (fun e => e.1 == k')
        (t.filter (fun e => !(e.1 == k)) ++ [(k, r)]) =
      List.find? (fun e => e.1 == k') t := by
  induction t with
  | nil => simp [List.find?_cons, hkk]
  | cons e t ih =>
    cases h0 : e.1 == k with
    | true =>
      have h1 : (e.1 == k') = false := by
        have he : e.1 = k := by simpa using h0
        rw [he]
        exact hkk
      simp [List.filter_cons, h0, List.find?_cons, h1, ih]
    | false =>
      cases h1 : e.1 == k' with
      | true => simp [List.filter_cons, h0, List.find?_cons, h1]
      | false => simp [List.filter_cons, h0, List.find?_cons, h1, ih]

/-- A put leaves every other key's lookup unchanged. -/
theorem cacheMatchOne_cachePut_other (c : Cache) (k k' : String) (r : Response)
    (h : k' ≠ k) :
    cacheMatchOne (cachePut c k r) k' = cacheMatchOne c k' := by
  have hkk : (k == k') = false := by
    simp only [beq_eq_false_iff_ne]
    exact Ne.symm h
  unfold cacheMatchOne cachePut
  rw [find_filterne_append c k k' r hkk]

/-- After a put, the entries carrying the key are exactly the new one. -/
theorem filter_cachePut_self (c : Cache) (k : String) (r : Response) :
    (cachePut c k r).filter (fun e => e.1 == k) = [(k, r)] := by
  unfold cachePut
  rw [List.filter_append]
  have h1 : (c.filter (fun e => !(e.1 == k))).filter (fun e => e.1 == k) = [] := by
    induction c with
    | nil => rfl
    | cons e t ih => by_cases h : e.1 = k <;> simp [List.filter_cons, h, ih]
  simp [h1]

/-- Reading back the cache just set under a name yields that cache. -/
theorem cachesGet_cachesSet (cs : CacheStorage) (n : String) (c : Cache) :
    cachesGet (cachesSet cs n c) n = c := by
  induction cs with
  | nil => simp [cachesSet, cachesGet]
  | cons e t ih =>
    unfold cachesSet
    by_cases h : e.1 = n
    · simp [h, cachesGet]
    · simpa [cachesGet, List.find?_cons, h] using ih

/-- A transport rejection of any path in the batch fails the whole
`addAll` fetch batch. -/
theorem addAllFetch_eq_none_of_reject (net : String → FetchOutcome)
    (ps : List String) (p : String) (hp : p ∈ ps) (h : net p = .reject) :
    addAllFetch net ps = none := by
  induction ps with
  | nil => cases hp
  | cons q qs ih =>
    rcases List.mem_cons.mp hp with rfl | hq
    · simp [addAllFetch, h]
    · unfold addAllFetch
      cases hnq : net q with
      | reject => rfl
      | success r => by_cases hok : r.ok <;> simp [hok, ih hq]

/-- A successful `addAll` fetch batch covers exactly the requested paths,
in order. -/
theorem addAllFetch_keys (net : String → FetchOutcome) (ps : List String)
    (es : List (String × Response)) (h : addAllFetch net ps = some es) :
    es.map Prod.fst = ps := by
  induction ps generalizing es with
  | nil =>
    simp [addAllFetch] at h
    simp [← h]
  | cons q qs ih =>
    unfold addAllFetch at h
    cases hnq : net q with
    | reject => simp [hnq] at h
    | success r =>
      by_cases hok : r.ok
      · simp only [hnq, hok, if_true, Option.map_eq_some'] at h
        obtain ⟨es', h1, h2⟩ := h
        simp [← h2, ih es' h1]
      · simp [hnq, hok] at h

/-- Every key committed by the batch write is afterwards present in the
cache (as is everything that was already there). -/
theorem foldl_cachePut_isSome (es : List (String × Response)) (c : Cache)
    (k : String)
    (h : k ∈ es.map Prod.fst ∨ (cacheMatchOne c k).isSome = true) :
    (cacheMatchOne (es.foldl (fun acc e => cachePut acc e.1 e.2) c) k).isSome = true := by
  induction es generalizing c with
  | nil =>
    rcases h with h | h
    · cases h
    · simpa using h
  | cons e es ih =>
    rw [List.foldl_cons]
    apply ih
    by_cases hk : k = e.1
    · subst hk
      right
      simp [cacheMatchOne_cachePut_self]
    · rcases h with h | h
      · rw [List.map_cons] at h
        rcases List.mem_cons.mp h with h' | h'
        · exact absurd h' hk
        · left
          exact h'
      · right
        rwa [cacheMatchOne_cachePut_other _ _ _ _ hk]

/-! ## Claims -/

/-- C1: non-GET requests, and GET requests whose path starts with a bypass
prefix, are never intercepted: the handler returns without calling
`respondWith`, reads and writes no cache, issues no fetch of its own, and
the store is left unchanged, whatever the network would do. -/
theorem fetch_non_get_or_bypass_not_intercepted
    (store : CacheStorage) (net : FetchOutcome) (req : Request)
    (h : req.method ≠ "GET" ∨ isBypass req.path = true) :
    handleFetch store net req =
      { outcome := .passThrough, store := store,
        networkUsed := false, cacheRead := false } := by
  rcases h with h | h
  · simp [handleFetch, h]
  · by_cases hm : req.method = "GET"
    · simp [handleFetch, hm, h]
    · simp [handleFetch, hm]

/-- Witness for C1: a POST to `/cart/add/3/` passes through untouched. -/
theorem fetch_non_get_or_bypass_not_intercepted_witness :
    handleFetch [] .reject
        { method := "POST", path := "/cart/add/3/", query := "", accept := none } =
      { outcome := .passThrough, store := [],
        networkUsed := false, cacheRead := false } :=
  fetch_non_get_or_bypass_not_intercepted [] .reject _ (Or.inl (by decide))

/-- C2: the cache-first strategy for `/static/` GET requests: a cache hit is
returned with no network use and no store change; on a miss the network
response is returned and written to the store exactly when it is `ok`; a
transport rejection on a miss propagates as a failed fetch. -/
theorem static_cache_first_strategy
    (store : CacheStorage) (req : Request)
    (hm : req.method = "GET")
    (hs : jsStartsWith req.path "/static/" = true) :
    (∀ (net : FetchOutcome) (cached : Response),
        cachesMatch store (reqKey req) = some cached →
        handleFetch store net req =
          { outcome := .respond cached, store := store,
            networkUsed := false, cacheRead := true })
    ∧ (cachesMatch store (reqKey req) = none →
        (∀ r : Response,
          handleFetch store (.success r) req =
            if r.ok then
              { outcome := .respond r,
                store := cachesPut store CACHE_NAME (reqKey req) r,
                networkUsed := true, cacheRead := true }
            else
              { outcome := .respond r, store := store,
                networkUsed := true, cacheRead := true })
        ∧ handleFetch store .reject req =
            { outcome := .failure, store := store,
              networkUsed := true, cacheRead := true }) := by
  have hb := static_path_not_bypass req.path hs
  refine ⟨fun net cached hcm => ?_, fun hcm => ⟨fun r => ?_, ?_⟩⟩ <;>
    simp [handleFetch, hm, hb, hs, hcm]

/-- Witness for C2: a cached `/static/css/main.css` is served from the cache
even while the network would reject. -/
theorem static_cache_first_strategy_witness :
    handleFetch
        [(CACHE_NAME, [("/static/css/main.css", ⟨200, "cssbody", some "text/css"⟩)])]
        .reject
        { method := "GET", path := "/static/css/main.css", query := "", accept := none } =
      { outcome := .respond ⟨200, "cssbody", some "text/css"⟩,
        store := [(CACHE_NAME, [("/static/css/main.css", ⟨200, "cssbody", some "text/css"⟩)])],
        networkUsed := false, cacheRead := true } :=
  (static_cache_first_strategy _ _ rfl (by decide)).1 .reject _ (by decide)

/-- C3: an intercepted page request (GET, not bypass, not static) whose
network fetch rejects is answered from the cache when an entry exists: the
cached response is returned unchanged, whatever its staleness or status,
and the store is not modified. -/
theorem page_offline_cached_fallback
    (store : CacheStorage) (req : Request) (cached : Response)
    (hm : req.method = "GET")
    (hb : isBypass req.path = false)
    (hs : jsStartsWith req.path "/static/" = false)
    (hcm : cachesMatch store (reqKey req) = some cached) :
    handleFetch store .reject req =
      { outcome := .respond cached, store := store,
        networkUsed := true, cacheRead := true } := by
  simp [handleFetch, hm, hb, hs, hcm]

/-- Witness for C3: a previously cached `GET /menu/` (status 200) is served
from the cache while offline. -/
theorem page_offline_cached_fallback_witness :
    handleFetch [(CACHE_NAME, [("/menu/", ⟨200, "menu page", some "text/html"⟩)])]
        .reject
        { method := "GET", path := "/menu/", query := "", accept := some "text/html" } =
      { outcome := .respond ⟨200, "menu page", some "text/html"⟩,
        store := [(CACHE_NAME, [("/menu/", ⟨200, "menu page", some "text/html"⟩)])],
        networkUsed := true, cacheRead := true } :=
  page_offline_cached_fallback _ _ _ rfl (by decide) (by decide) (by decide)

/-- C4: an intercepted page request whose network fetch rejects and that has
no cached entry receives a synthesized response — the fixed HTML offline
notice (status 503, `text/html; charset=utf-8`) when the Accept header
includes `text/html`, and the plain body `Offline` with status 503
otherwise; in either case `respondWith` settles with a response, never a
hard failure. -/
theorem page_offline_synthesized_response
    (store : CacheStorage) (req : Request)
    (hm : req.method = "GET")
    (hb : isBypass req.path = false)
    (hs : jsStartsWith req.path "/static/" = false)
    (hcm : cachesMatch store (reqKey req) = none) :
    handleFetch store .reject req =
      { outcome := .respond
          (if acceptsHtml req then offlineHtmlResponse else offlineTextResponse),
        store := store, networkUsed := true, cacheRead := true }
    ∧ offlineHtmlResponse.status = 503
    ∧ offlineHtmlResponse.contentType = some "text/html; charset=utf-8"
    ∧ jsIncludes offlineHtmlResponse.body "Вы офлайн" = true
    ∧ offlineTextResponse.body = "Offline"
    ∧ offlineTextResponse.status = 503 := by
  refine ⟨?_, rfl, rfl, by decide, rfl, rfl⟩
  by_cases h : acceptsHtml req <;> simp [handleFetch, hm, hb, hs, hcm, h]

/-- Witness for C4: a never-cached `GET /menu/item/42/` with
`Accept: text/html`, offline, gets the HTML offline notice. -/
theorem page_offline_synthesized_response_witness :
    handleFetch [] .reject
        { method := "GET", path := "/menu/item/42/", query := "",
          accept := some "text/html" } =
      { outcome := .respond offlineHtmlResponse, store := [],
        networkUsed := true, cacheRead := true } := by
  have ha : acceptsHtml
      { method := "GET", path := "/menu/item/42/", query := "",
        accept := some "text/html" } = true := by decide
  have h := (page_offline_synthesized_response []
    { method := "GET", path := "/menu/item/42/", query := "",
      accept := some "text/html" } rfl (by decide) (by decide) rfl).1
  rw [ha] at h
  simpa using h

/-- C5: in both strategies a network response that completed but is not `ok`
is handed back to the page unmodified, is never written to the store, and
does not trigger the offline fallback (for the static strategy the network
is only consulted on a cache miss, hence the conditional hypothesis). -/
theorem non_ok_response_passthrough
    (store : CacheStorage) (req : Request) (r : Response)
    (hm : req.method = "GET")
    (hb : isBypass req.path = false)
    (hok : r.ok = false)
    (hmiss : jsStartsWith req.path "/static/" = true →
      cachesMatch store (reqKey req) = none) :
    (handleFetch store (.success r) req).outcome = .respond r
    ∧ (handleFetch store (.success r) req).store = store := by
  by_cases hs : jsStartsWith req.path "/static/" = true
  · have hcm := hmiss hs
    constructor <;> simp [handleFetch, hm, hb, hs, hcm, hok]
  · have hs' : jsStartsWith req.path "/static/" = false := by simpa using hs
    constructor <;> simp [handleFetch, hm, hb, hs', hok]

/-- Witness for C5: a 404 for a page request is returned as-is and the store
stays empty. -/
theorem non_ok_response_passthrough_witness :
    (handleFetch [] (.success ⟨404, "not found", none⟩)
        { method := "GET", path := "/menu/nope/", query := "", accept := none }).outcome =
      .respond ⟨404, "not found", none⟩
    ∧ (handleFetch [] (.success ⟨404, "not found", none⟩)
        { method := "GET", path := "/menu/nope/", query := "", accept := none }).store = [] :=
  non_ok_response_passthrough [] _ _ rfl (by decide) (by decide)
    (fun h => absurd h (by decide))

/-- C6: install is all-or-nothing over the Static Asset List: one rejected
fetch fails the whole install (nothing is committed, the failure propagates
to the host), and a successful install leaves every listed path present in
the store named `suwi-v1`. -/
theorem install_all_or_nothing
    (store : CacheStorage) (net : String → FetchOutcome) :
    ((∃ p ∈ STATIC_ASSETS, net p = .reject) → handleInstall store net = none)
    ∧ (∀ store' : CacheStorage, handleInstall store net = some store' →
        ∀ p ∈ STATIC_ASSETS,
          (cacheMatchOne (cachesGet store' CACHE_NAME) p).isSome = true) := by
  constructor
  · rintro ⟨p, hp, hrej⟩
    unfold handleInstall addAll
    rw [addAllFetch_eq_none_of_reject net STATIC_ASSETS p hp hrej]
    rfl
  · intro store' hsome p hp
    unfold handleInstall addAll at hsome
    cases hfetch : addAllFetch net STATIC_ASSETS with
    | none => rw [hfetch] at hsome; cases hsome
    | some es =>
      rw [hfetch] at hsome
      simp only [Option.map_some', Option.some.injEq] at hsome
      rw [← hsome, cachesGet_cachesSet]
      exact foldl_cachePut_isSome es _ p
        (Or.inl (by rw [addAllFetch_keys net STATIC_ASSETS es hfetch]; exact hp))

/-- Witness for C6: a network on which `/static/js/main.js` rejects fails
the install outright. -/
theorem install_all_or_nothing_witness :
    handleInstall []
        (fun p => if p = "/static/js/main.js" then .reject else .success ⟨200, "x", none⟩) =
      none :=
  (install_all_or_nothing [] _).1 ⟨"/static/js/main.js", by decide, by decide⟩

/-- C7: activation deletes exactly the stale stores: a store survives iff it
was present and is not (prefixed `suwi-` and different from `suwi-v1`); in
particular with `suwi-v0` and `suwi-v1` present, only `suwi-v1` remains,
its contents untouched. -/
theorem activate_deletes_exactly_stale_stores :
    (∀ (store : CacheStorage) (e : String × Cache),
        e ∈ handleActivate store ↔
          e ∈ store ∧ ¬(jsStartsWith e.1 "suwi-" = true ∧ e.1 ≠ CACHE_NAME))
    ∧ (∀ c0 c1 : Cache,
        handleActivate [("suwi-v0", c0), ("suwi-v1", c1)] = [("suwi-v1", c1)]) := by
  constructor
  · intro store e
    rw [handleActivate, List.mem_filter]
    constructor
    · rintro ⟨hmem, hk⟩
      refine ⟨hmem, ?_⟩
      rintro ⟨hpre, hne⟩
      rw [isStale, hpre] at hk
      simp [bne_iff_ne, hne] at hk
    · rintro ⟨hmem, hk⟩
      refine ⟨hmem, ?_⟩
      rw [isStale]
      cases hpre : jsStartsWith e.1 "suwi-" with
      | false => rfl
      | true =>
        have hne : e.1 = CACHE_NAME := by
          by_contra hne
          exact hk ⟨hpre, hne⟩
        simp [hne]
  · intro c0 c1
    have h0 : isStale "suwi-v0" = true := by decide
    have h1 : isStale "suwi-v1" = false := by decide
    simp [handleActivate, List.filter_cons, h0, h1]

/-- C8: activate-time deletion is best-effort per store: with an arbitrary
per-store deletion success oracle, a store is removed exactly when it is
stale and its own deletion succeeds — one failed deletion neither prevents
the others nor resurrects anything; with every deletion succeeding the
behaviour coincides with the plain activate cleanup. -/
theorem activate_deletion_best_effort :
    (∀ (store : CacheStorage) (delOk : String → Bool) (e : String × Cache),
        e ∈ handleActivateBE store delOk ↔
          e ∈ store ∧ ¬(isStale e.1 = true ∧ delOk e.1 = true))
    ∧ (∀ store : CacheStorage,
        handleActivateBE store (fun _ => true) = handleActivate store) := by
  constructor
  · intro store delOk e
    rw [handleActivateBE, List.mem_filter]
    constructor
    · rintro ⟨hmem, hk⟩
      refine ⟨hmem, ?_⟩
      rintro ⟨h1, h2⟩
      rw [h1, h2] at hk
      simp at hk
    · rintro ⟨hmem, hk⟩
      refine ⟨hmem, ?_⟩
      cases hs : isStale e.1 with
      | false => simp [hs]
      | true =>
        cases hd : delOk e.1 with
        | false => simp [hs, hd]
        | true => exact absurd ⟨hs, hd⟩ hk
  · intro store
    simp [handleActivateBE, handleActivate]

/-- C9: cache writes are idempotent per key: after the same page request
succeeds twice (responses `r` then `r'`, both ok), the `suwi-v1` cache
holds exactly one entry for that request, and it is the second response. -/
theorem page_cache_write_idempotent
    (store : CacheStorage) (req : Request) (r r' : Response)
    (hm : req.method = "GET")
    (hb : isBypass req.path = false)
    (hs : jsStartsWith req.path "/static/" = false)
    (hok : r.ok = true) (hok' : r'.ok = true) :
    ((cachesGet
        (handleFetch
          (handleFetch store (.success r) req).store
          (.success r') req).store
        CACHE_NAME).filter (fun e => e.1 == reqKey req)).length = 1
    ∧ cacheMatchOne
        (cachesGet
          (handleFetch
            (handleFetch store (.success r) req).store
            (.success r') req).store
          CACHE_NAME) (reqKey req) = some r' := by
  have h1 : (handleFetch store (.success r) req).store =
      cachesPut store CACHE_NAME (reqKey req) r := by
    simp [handleFetch, hm, hb, hs, hok]
  have h2 : (handleFetch (handleFetch store (.success r) req).store
      (.success r') req).store =
      cachesPut (handleFetch store (.success r) req).store
        CACHE_NAME (reqKey req) r' := by
    simp [handleFetch, hm, hb, hs, hok']
  rw [h2, cachesPut, cachesGet_cachesSet]
  exact ⟨by rw [filter_cachePut_self]; rfl, cacheMatchOne_cachePut_self _ _ _⟩

/-- Witness for C9: `GET /menu/` fetched twice with two different successful
responses leaves one cached entry holding the second response. -/
theorem page_cache_write_idempotent_witness :
    ((cachesGet
        (handleFetch
          (handleFetch [] (.success ⟨200, "menu one", none⟩)
            { method := "GET", path := "/menu/", query := "", accept := none }).store
          (.success ⟨200, "menu two", none⟩)
          { method := "GET", path := "/menu/", query := "", accept := none }).store
        CACHE_NAME).filter
        (fun e => e.1 == reqKey
          { method := "GET", path := "/menu/", query := "", accept := none })).length = 1
    ∧ cacheMatchOne
        (cachesGet
          (handleFetch
            (handleFetch [] (.success ⟨200, "menu one", none⟩)
              { method := "GET", path := "/menu/", query := "", accept := none }).store
            (.success ⟨200, "menu two", none⟩)
            { method := "GET", path := "/menu/", query := "", accept := none }).store
          CACHE_NAME)
        (reqKey { method := "GET", path := "/menu/", query := "", accept := none }) =
        some ⟨200, "menu two", none⟩ :=
  page_cache_write_idempotent [] _ _ _ rfl (by decide) (by decide) (by decide) (by decide)

/-- C10: a push payload without a title is displayed under the fixed default
title `Suwi`, and the body field is passed through to the notification
options exactly as supplied, with no default of its own. -/
theorem push_default_title_and_body_passthrough :
    (∀ b u : Option String,
        handlePush (some { title := none, body := b, url := u }) =
          some ("Suwi",
            { body := b
              icon := "/static/icons/icon-192x192.png"
              badge := "/static/icons/icon-72x72.png"
              vibrate := [100, 50, 100]
              dataUrl := jsOr u "/" }))
    ∧ (∀ d : PushPayload,
        (handlePush (some d)).map (fun p => p.2.body) = some d.body) := by
  exact ⟨fun b u => rfl, fun d => rfl⟩
